import Mathlib

/-!
Shallow embedding of the items CRUD backend (`app/src/index.js` and the pg
adapter `app/src/db.js`) of the Devops-Technical-Assignment repository.

The relational store is modelled as an explicit `Store` value: the `items`
table rows, the next SERIAL id, the store clock (`CURRENT_TIMESTAMP`), and an
optional failure mode (`fail = some msg` means every statement the pool runs
raises an error carrying `msg`, as when the database is unreachable).  Each SQL
statement text appearing in `index.js` is embedded as one function on `Store`
returning `Except String`, mirroring the semantics of the statement on the
schema `items(id serial primary key, name text not null, description text,
created_at timestamp default current_timestamp)`.
-/

namespace DevopsAssignment

/-- HTTP methods used by the app's routes. -/
inductive Method
  | GET | POST | PUT | DELETE
deriving DecidableEq

/-- One row of the `items` table (§ schema in `db.js`): `id SERIAL`,
`name TEXT NOT NULL`, `description TEXT` (nullable), `created_at TIMESTAMP
DEFAULT CURRENT_TIMESTAMP` modelled as a `Nat` tick. -/
structure Item where
  id : Nat
  name : String
  description : Option String
  created_at : Nat
deriving DecidableEq

/-- The state of the relational store plus its failure modes.  `rows` is the
physical table content, `nextId` the SERIAL counter, `now` the store clock.
`fail = some msg` makes every statement error with `msg` (unreachable /
failing database); `metricsFail` likewise for the prom-client registry
snapshot. -/
structure Store where
  rows : List Item
  nextId : Nat
  now : Nat
  fail : Option String
  metricsFail : Option String
deriving DecidableEq

/-- Ordering of rows by ascending `id`, as produced by `ORDER BY id`. -/
def idLe (a b : Item) : Prop := a.id ≤ b.id

instance : DecidableRel idLe := fun a b => Nat.decLe a.id b.id

instance : IsTotal Item idLe := ⟨fun a b => Nat.le_total a.id b.id⟩

instance : IsTrans Item idLe := ⟨fun _ _ _ h h2 => Nat.le_trans h h2⟩

/-- Result rows of `SELECT * FROM items ORDER BY id`. -/
def orderById (l : List Item) : List Item := l.insertionSort idLe

/-- `db.query('SELECT * FROM items ORDER BY id')`. -/
def dbSelectAll (s : Store) : Except String (List Item) :=
  match s.fail with
  | some m => .error m
  | none => .ok (orderById s.rows)

/-- `db.query('SELECT * FROM items WHERE id=$1', [id])`. -/
def dbSelectById (id : Nat) (s : Store) : Except String (List Item) :=
  match s.fail with
  | some m => .error m
  | none => .ok (s.rows.filter (fun r => r.id = id))

/-- `db.query('INSERT INTO items(name, description) VALUES($1, $2)
RETURNING *', [name, description])`: assigns the SERIAL id and the
`created_at` default, appends the row, returns it. -/
def dbInsert (name : String) (descr : Option String) (s : Store) :
    Except String (Item × Store) :=
  match s.fail with
  | some m => .error m
  | none =>
    let it : Item := ⟨s.nextId, name, descr, s.now⟩
    .ok (it, { s with rows := s.rows ++ [it], nextId := s.nextId + 1 })

/-- `db.query('UPDATE items SET name=$1, description=$2 WHERE id=$3
RETURNING *', [name, description, id])`.  A JS `undefined` parameter is sent
as SQL NULL (`name = none`); when at least one row matches, setting
`name` to NULL violates the `NOT NULL` constraint and the statement errors;
when no row matches, no row is modified and no constraint fires, so the
result set is empty. -/
def dbUpdate (name descr : Option String) (id : Nat) (s : Store) :
    Except String (List Item × Store) :=
  match s.fail with
  | some m => .error m
  | none =>
    if s.rows.any (fun r => r.id = id) then
      match name with
      | none => .error "null value in column name violates not-null constraint"
      | some n =>
        let rows := s.rows.map (fun r =>
          if r.id = id then { r with name := n, description := descr } else r)
        .ok (rows.filter (fun r => r.id = id), { s with rows := rows })
    else .ok ([], s)

/-- `db.query('DELETE FROM items WHERE id=$1', [id])`: returns the
`rowCount` of deleted rows and the new table content. -/
def dbDelete (id : Nat) (s : Store) : Except String (Nat × Store) :=
  match s.fail with
  | some m => .error m
  | none =>
    let kept := s.rows.filter (fun r => r.id ≠ id)
    .ok (s.rows.length - kept.length, { s with rows := kept })

/-- A JSON request body `{name?, description?}`; an absent or JSON-null field
is `none`. -/
structure ReqBody where
  name : Option String
  description : Option String
deriving DecidableEq

/-- JS truthiness test `!x` on an optional string field: true exactly for
absent/null and for the empty string. -/
def falsy : Option String → Bool
  | none => true
  | some s => s = ""

/-- The `description || null` coercion in the POST handler: a falsy
description becomes SQL NULL. -/
def coalesceDescr (d : Option String) : Option String :=
  if falsy d then none else d

/-- Response bodies the app produces. -/
inductive Body
  | jsonList (its : List Item)
  | jsonItem (it : Item)
  | jsonError (msg : String)
  | jsonStatus (msg : String)
  | metricsText
  | errText (msg : String)
  | html
  | empty
deriving DecidableEq

/-- An HTTP response: status code and body. -/
structure Response where
  status : Nat
  body : Body
deriving DecidableEq

/-- Handler of `GET /items` (`index.js` lines 64-72). -/
def listItemsHandler (s : Store) : Response × Store :=
  match dbSelectAll s with
  | .ok rows => (⟨200, .jsonList rows⟩, s)
  | .error _ => (⟨500, .jsonError "db error"⟩, s)

/-- Handler of `GET /items/:id` (`index.js` lines 74-83). -/
def getItemHandler (id : Nat) (s : Store) : Response × Store :=
  match dbSelectById id s with
  | .ok rows =>
    match rows with
    | [] => (⟨404, .jsonError "not found"⟩, s)
    | r :: _ => (⟨200, .jsonItem r⟩, s)
  | .error _ => (⟨500, .jsonError "db error"⟩, s)

/-- Handler of `POST /items` (`index.js` lines 85-98): rejects a falsy
`name` with 400 before any store call, otherwise inserts with the
`description || null` coercion and answers 201 with the returned row. -/
def createItemHandler (b : ReqBody) (s : Store) : Response × Store :=
  if falsy b.name then (⟨400, .jsonError "name required"⟩, s)
  else
    match dbInsert (b.name.getD "") (coalesceDescr b.description) s with
    | .ok (it, s2) => (⟨201, .jsonItem it⟩, s2)
    | .error _ => (⟨500, .jsonError "db error"⟩, s)

/-- Handler of `PUT /items/:id` (`index.js` lines 100-113): no validation,
goes straight to the UPDATE; 404 when the result set is empty, 200 with the
updated row otherwise. -/
def updateItemHandler (id : Nat) (b : ReqBody) (s : Store) : Response × Store :=
  match dbUpdate b.name b.description id s with
  | .ok (rows, s2) =>
    match rows with
    | [] => (⟨404, .jsonError "not found"⟩, s2)
    | r :: _ => (⟨200, .jsonItem r⟩, s2)
  | .error _ => (⟨500, .jsonError "db error"⟩, s)

/-- Handler of `DELETE /items/:id` (`index.js` lines 115-124). -/
def deleteItemHandler (id : Nat) (s : Store) : Response × Store :=
  match dbDelete id s with
  | .ok (rowCount, s2) =>
    if rowCount = 0 then (⟨404, .jsonError "not found"⟩, s2)
    else (⟨204, .empty⟩, s2)
  | .error _ => (⟨500, .jsonError "db error"⟩, s)

/-- Handler of `GET /healthz` (`index.js` line 127): unconditional 200. -/
def healthzHandler (s : Store) : Response × Store :=
  (⟨200, .jsonStatus "ok"⟩, s)

/-- Request paths, at the granularity the app's routes distinguish. -/
inductive ReqPath
  | metrics
  | items
  | itemsId (id : Nat)
  | healthz
  | other (raw : String)
deriving DecidableEq

/-- An inbound HTTP request. -/
structure Request where
  method : Method
  path : ReqPath
  body : ReqBody
deriving DecidableEq

/-- The raw URL path (`req.path`). -/
def rawPath : ReqPath → String
  | .metrics => "/metrics"
  | .items => "/items"
  | .itemsId id => "/items/" ++ toString id
  | .healthz => "/healthz"
  | .other raw => raw

/-- The express route pattern matched by a request (`req.route.path`), `none`
when no route matches (the request falls through to express's default 404). -/
def routePattern : Method → ReqPath → Option String
  | .GET, .metrics => some "/metrics"
  | .GET, .items => some "/items"
  | .GET, .itemsId _ => some "/items/:id"
  | .POST, .items => some "/items"
  | .PUT, .itemsId _ => some "/items/:id"
  | .DELETE, .itemsId _ => some "/items/:id"
  | .GET, .healthz => some "/healthz"
  | _, _ => none

/-- One observation recorded into the `http_request_duration_seconds`
histogram: the `method`/`route`/`code` label values. -/
structure Observation where
  method : Method
  route : String
  code : Nat
deriving DecidableEq

/-- The routes registered after the timing middleware (`index.js` lines
64-127), tried in registration order, with express's default 404 as the
fallthrough.  Returns the response, the new store, and `req.route.path` when
a route matched. -/
def dispatch (req : Request) (s : Store) : Response × Store × Option String :=
  match req.method, req.path with
  | .GET, .items =>
    ((listItemsHandler s).1, (listItemsHandler s).2, some "/items")
  | .GET, .itemsId id =>
    ((getItemHandler id s).1, (getItemHandler id s).2, some "/items/:id")
  | .POST, .items =>
    ((createItemHandler req.body s).1, (createItemHandler req.body s).2,
     some "/items")
  | .PUT, .itemsId id =>
    ((updateItemHandler id req.body s).1, (updateItemHandler id req.body s).2,
     some "/items/:id")
  | .DELETE, .itemsId id =>
    ((deleteItemHandler id s).1, (deleteItemHandler id s).2, some "/items/:id")
  | .GET, .healthz =>
    ((healthzHandler s).1, (healthzHandler s).2, some "/healthz")
  | _, _ => (⟨404, .html⟩, s, none)

/-- The whole request pipeline in registration order (`index.js`): the
`GET /metrics` route is registered at line 45, BEFORE the timing middleware
at line 55, so a request it handles never reaches the middleware and records
no observation; every other request passes through the middleware, which on
response completion records exactly one observation labelled by method,
matched route pattern (falling back to `req.path`), and final status. -/
def handleRequest (req : Request) (s : Store) :
    Response × Store × List Observation :=
  if req.method = .GET ∧ req.path = .metrics then
    match s.metricsFail with
    | none => (⟨200, .metricsText⟩, s, [])
    | some e => (⟨500, .errText e⟩, s, [])
  else
    ((dispatch req s).1, (dispatch req s).2.1,
     [⟨req.method, (dispatch req s).2.2.getD (rawPath req.path),
       (dispatch req s).1.status⟩])

/-- Result of the DB-init IIFE (`index.js` lines 29-42): how many times
`db.init()` was called, whether it ever succeeded, the total milliseconds
slept, and whether the process was exited (the loop never calls
`process.exit`, so this is always `false`). -/
structure InitResult where
  calls : Nat
  succeeded : Bool
  sleptMs : Nat
  exited : Bool
deriving DecidableEq

/-- The `while (tries < 12)` retry loop of the DB-init IIFE, parametrized by
the outcome of each `db.init()` call: `outcome t` is the success of the call
made while the counter holds `t`.  On success the loop breaks; on failure it
increments `tries`, sleeps 2000 ms, and iterates. -/
def initLoop (outcome : Nat → Bool) (tries : Nat) : InitResult :=
  if tries < 12 then
    if outcome tries then ⟨1, true, 0, false⟩
    else
      let r := initLoop outcome (tries + 1)
      ⟨r.calls + 1, r.succeeded, r.sleptMs + 2000, r.exited⟩
  else ⟨0, false, 0, false⟩
termination_by 12 - tries

/-- The startup sequencer: the retry loop started with `tries = 0`. -/
def dbInitSequencer (outcome : Nat → Bool) : InitResult :=
  initLoop outcome 0

/-- The process environment (`process.env`). -/
structure Env where
  vars : String → Option String

/-- Overriding one environment variable. -/
def Env.set (e : Env) (k v : String) : Env :=
  ⟨fun k2 => if k2 = k then some v else e.vars k2⟩

/-- The configuration passed to `new Pool` in `db.js`. -/
structure PoolConfig where
  host : String
  port : Option Nat
  user : String
  password : String
  database : String
  max : Nat
deriving DecidableEq

/-- The `new Pool` argument built in `db.js` lines 3-10: host, port, user,
password and database come from the environment with defaults; `max` is the
literal 5.  `port` is `none` when `POSTGRES_PORT` is set but not numeric
(JS `Number` yields NaN there). -/
def poolConfig (e : Env) : PoolConfig :=
  { host := (e.vars "POSTGRES_HOST").getD "db"
  , port := match e.vars "POSTGRES_PORT" with
            | some p => p.toNat?
            | none => some 5432
  , user := (e.vars "POSTGRES_USER").getD "syvora"
  , password := (e.vars "POSTGRES_PASSWORD").getD "syvora_pass"
  , database := (e.vars "POSTGRES_DB").getD "syvoradb"
  , max := 5 }

/-- An empty store with the SERIAL counter at 1, as after `init()` on a
fresh database. -/
def store0 : Store := ⟨[], 1, 100, none, none⟩

/-! ## Theorems -/

/-- Claim C2: a `POST /items` whose body has an absent or empty-string `name`
is rejected with 400 `name required` and the store is untouched (the
validation runs before any store call, so this holds for every store state,
reachable or failing). -/
theorem post_missing_name_rejected (b : ReqBody) (s : Store)
    (hb : falsy b.name = true) :
    createItemHandler b s = (⟨400, .jsonError "name required"⟩, s) := by
  simp [createItemHandler, hb]

/-- Witness for `post_missing_name_rejected`: the empty-string name on the
fresh store. -/
theorem post_missing_name_rejected_witness :
    createItemHandler ⟨some "", some "d"⟩ store0 =
      (⟨400, .jsonError "name required"⟩, store0) :=
  post_missing_name_rejected ⟨some "", some "d"⟩ store0 (by decide)

/-- Claim C5: when the store fails with an arbitrary error message, each of
the five items handlers answers 500 with exactly `db error`, independent of
the message (for the create handler the store is only reached when the name
validation passes, hence the non-falsy hypothesis). -/
theorem store_errors_collapse_to_500 (msg : String) (s : Store) (id : Nat)
    (b : ReqBody) (hs : s.fail = some msg) (hb : falsy b.name = false) :
    (listItemsHandler s).1 = ⟨500, .jsonError "db error"⟩ ∧
    (getItemHandler id s).1 = ⟨500, .jsonError "db error"⟩ ∧
    (createItemHandler b s).1 = ⟨500, .jsonError "db error"⟩ ∧
    (updateItemHandler id b s).1 = ⟨500, .jsonError "db error"⟩ ∧
    (deleteItemHandler id s).1 = ⟨500, .jsonError "db error"⟩ := by
  refine ⟨?_, ?_, ?_, ?_, ?_⟩ <;>
    simp [listItemsHandler, getItemHandler, createItemHandler,
          updateItemHandler, deleteItemHandler, dbSelectAll, dbSelectById,
          dbInsert, dbUpdate, dbDelete, hs, hb]

/-- Witness for `store_errors_collapse_to_500`: a store failing with message
`boom`. -/
theorem store_errors_collapse_to_500_witness :
    (listItemsHandler ⟨[], 1, 100, some "boom", none⟩).1 =
      ⟨500, .jsonError "db error"⟩ ∧
    (getItemHandler 7 ⟨[], 1, 100, some "boom", none⟩).1 =
      ⟨500, .jsonError "db error"⟩ ∧
    (createItemHandler ⟨some "x", none⟩ ⟨[], 1, 100, some "boom", none⟩).1 =
      ⟨500, .jsonError "db error"⟩ ∧
    (updateItemHandler 7 ⟨some "x", none⟩ ⟨[], 1, 100, some "boom", none⟩).1 =
      ⟨500, .jsonError "db error"⟩ ∧
    (deleteItemHandler 7 ⟨[], 1, 100, some "boom", none⟩).1 =
      ⟨500, .jsonError "db error"⟩ :=
  store_errors_collapse_to_500 "boom" ⟨[], 1, 100, some "boom", none⟩ 7
    ⟨some "x", none⟩ rfl (by decide)

/-- Claim C10: a `POST /items` with a non-empty name and a falsy description
(absent, null, or the empty string) stores the item with a NULL description,
because of the `description || null` coercion before the insert. -/
theorem post_falsy_description_stored_null (s : Store) (n : String)
    (d : Option String) (hs : s.fail = none) (hn : n ≠ "")
    (hd : falsy d = true) :
    createItemHandler ⟨some n, d⟩ s =
      (⟨201, .jsonItem ⟨s.nextId, n, none, s.now⟩⟩,
       { s with rows := s.rows ++ [⟨s.nextId, n, none, s.now⟩],
                nextId := s.nextId + 1 }) := by
  have hfn : falsy (some n) = false := by simp [falsy, hn]
  simp [createItemHandler, hfn, coalesceDescr, hd, dbInsert, hs]

/-- Witness for `post_falsy_description_stored_null`: posting
`name = "widget"`, `description = ""` on the fresh store yields a row with a
NULL description. -/
theorem post_falsy_description_stored_null_witness :
    createItemHandler ⟨some "widget", some ""⟩ store0 =
      (⟨201, .jsonItem ⟨1, "widget", none, 100⟩⟩,
       ⟨[⟨1, "widget", none, 100⟩], 2, 100, none, none⟩) :=
  post_falsy_description_stored_null store0 "widget" (some "") rfl
    (by decide) (by decide)

/-- Claim C7: on a reachable store, `GET /items` answers 200 with exactly the
rows of the table (a permutation of the table content) sorted in ascending
id order, whatever order inserts and updates left them in, and does not
modify the store. -/
theorem list_items_sorted_ascending (s : Store) (hfail : s.fail = none) :
    (listItemsHandler s).1.status = 200 ∧
    (listItemsHandler s).1.body = .jsonList (orderById s.rows) ∧
    (orderById s.rows).Perm s.rows ∧
    List.Sorted idLe (orderById s.rows) ∧
    (listItemsHandler s).2 = s := by
  refine ⟨?_, ?_, ?_, ?_, ?_⟩
  · simp [listItemsHandler, dbSelectAll, hfail]
  · simp [listItemsHandler, dbSelectAll, hfail]
  · exact List.perm_insertionSort idLe s.rows
  · exact List.sorted_insertionSort idLe s.rows
  · simp [listItemsHandler, dbSelectAll, hfail]

/-- Witness for `list_items_sorted_ascending`: a two-row store whose rows
were inserted out of id order comes back sorted. -/
theorem list_items_sorted_ascending_witness :
    (listItemsHandler ⟨[⟨2, "b", none, 100⟩, ⟨1, "a", none, 100⟩], 3, 100,
        none, none⟩).1.status = 200 ∧
    List.Sorted idLe (orderById
      [⟨2, "b", none, 100⟩, ⟨1, "a", none, 100⟩]) := by
  have h := list_items_sorted_ascending
    ⟨[⟨2, "b", none, 100⟩, ⟨1, "a", none, 100⟩], 3, 100, none, none⟩ rfl
  exact ⟨h.1, h.2.2.2.1⟩

/-- Claim C9 counterexample: the pool's maximum is not configurable through
the environment — no environment makes `max` differ from the literal 5 in
`db.js`. -/
theorem pool_max_not_env_configurable :
    ¬ ∃ e : Env, (poolConfig e).max ≠ 5 :=
  fun ⟨_, h⟩ => h rfl

/-- Claim C9 (amended): the pool maximum is the hardcoded literal 5,
unaffected by any environment variable, while e.g. host and database name
are environment-provided with defaults. -/
theorem pool_max_fixed_at_five (e : Env) (k v : String) :
    (poolConfig e).max = 5 ∧
    (poolConfig (e.set k v)).max = (poolConfig e).max ∧
    (poolConfig (e.set "POSTGRES_HOST" v)).host = v ∧
    (poolConfig (e.set "POSTGRES_DB" v)).database = v := by
  refine ⟨rfl, rfl, ?_, ?_⟩ <;> simp [poolConfig, Env.set]

/-- Claim C3: on a reachable store, an id carried by no row yields 404 from
each of `GET /items/:id`, `PUT /items/:id` (for any body) and
`DELETE /items/:id`, and the store is unchanged. -/
theorem unknown_id_yields_404 (s : Store) (id : Nat) (b : ReqBody)
    (hfail : s.fail = none) (hid : ∀ r ∈ s.rows, r.id ≠ id) :
    getItemHandler id s = (⟨404, .jsonError "not found"⟩, s) ∧
    updateItemHandler id b s = (⟨404, .jsonError "not found"⟩, s) ∧
    deleteItemHandler id s = (⟨404, .jsonError "not found"⟩, s) := by
  have hfilter : s.rows.filter (fun r => r.id = id) = [] := by
    refine List.filter_eq_nil_iff.mpr ?_
    intro r hr
    simp [hid r hr]
  have hany : s.rows.any (fun r => r.id = id) = false := by
    refine List.any_eq_false.mpr ?_
    intro r hr
    simp [hid r hr]
  have hkeep : s.rows.filter (fun r => !decide (r.id = id)) = s.rows := by
    refine List.filter_eq_self.mpr ?_
    intro r hr
    simp [hid r hr]
  refine ⟨?_, ?_, ?_⟩
  · simp [getItemHandler, dbSelectById, hfail, hfilter]
  · simp [updateItemHandler, dbUpdate, hfail, hany]
  · simp [deleteItemHandler, dbDelete, hfail, hkeep]
    rw [← hfail]

/-- Witness for `unknown_id_yields_404`: id 9 on a one-row store holding only
id 1. -/
theorem unknown_id_yields_404_witness :
    getItemHandler 9 ⟨[⟨1, "a", none, 100⟩], 2, 100, none, none⟩ =
      (⟨404, .jsonError "not found"⟩,
       ⟨[⟨1, "a", none, 100⟩], 2, 100, none, none⟩) ∧
    updateItemHandler 9 ⟨some "x", none⟩
        ⟨[⟨1, "a", none, 100⟩], 2, 100, none, none⟩ =
      (⟨404, .jsonError "not found"⟩,
       ⟨[⟨1, "a", none, 100⟩], 2, 100, none, none⟩) ∧
    deleteItemHandler 9 ⟨[⟨1, "a", none, 100⟩], 2, 100, none, none⟩ =
      (⟨404, .jsonError "not found"⟩,
       ⟨[⟨1, "a", none, 100⟩], 2, 100, none, none⟩) :=
  unknown_id_yields_404 ⟨[⟨1, "a", none, 100⟩], 2, 100, none, none⟩ 9
    ⟨some "x", none⟩ rfl (by decide)

/-- When some row matches the updated id, the result set of the UPDATE is
non-empty: the updated version of a matching row belongs to it. -/
theorem updateFilter_ne_nil (s : Store) (id : Nat) (n : String)
    (d : Option String) (hany : s.rows.any (fun r => r.id = id) = true) :
    (s.rows.map (fun r =>
        if r.id = id then { r with name := n, description := d } else r)).filter
      (fun r => r.id = id) ≠ [] := by
  obtain ⟨r, hr, hrid⟩ := List.any_eq_true.mp hany
  have hrid2 : r.id = id := by simpa using hrid
  have hmem : ({ r with name := n, description := d } : Item) ∈
      s.rows.map (fun x =>
        if x.id = id then { x with name := n, description := d } else x) := by
    have hmap := List.mem_map_of_mem (fun x =>
      if x.id = id then { x with name := n, description := d } else x) hr
    simpa [hrid2] using hmap
  have hmemf : ({ r with name := n, description := d } : Item) ∈
      (s.rows.map (fun x =>
        if x.id = id then { x with name := n, description := d } else x)).filter
        (fun r => r.id = id) :=
    List.mem_filter.mpr ⟨hmem, by simp [hrid2]⟩
  exact List.ne_nil_of_mem hmemf

/-- Claim C6: the `PUT /items/:id` handler validates nothing: it never
answers 400, and even an empty-string name goes straight through to the
UPDATE — on a reachable store with a matching row it answers 200 (the
update applied), and an absent name reaches the store and surfaces as the
NOT NULL violation, i.e. 500, never 400. -/
theorem put_enforces_no_validation (id : Nat) (b : ReqBody) (s : Store) :
    (updateItemHandler id b s).1.status ≠ 400 ∧
    (s.fail = none → s.rows.any (fun r => r.id = id) = true →
      b.name = some "" → (updateItemHandler id b s).1.status = 200) ∧
    (s.fail = none → s.rows.any (fun r => r.id = id) = true →
      b.name = none → (updateItemHandler id b s).1.status = 500) := by
  refine ⟨?_, ?_, ?_⟩
  · unfold updateItemHandler
    rcases h : dbUpdate b.name b.description id s with m | ⟨rows, s2⟩
    · simp
    · rcases rows with _ | ⟨r, t⟩ <;> simp
  · intro hfail hany hname
    obtain ⟨a, t, hat⟩ := List.exists_cons_of_ne_nil
      (updateFilter_ne_nil s id "" b.description hany)
    simp [updateItemHandler, dbUpdate, hfail, hany, hname, hat]
  · intro hfail hany hname
    simp [updateItemHandler, dbUpdate, hfail, hany, hname]

/-- Witness for `put_enforces_no_validation`: updating the existing row 1
with an empty-string name answers 200, not 400. -/
theorem put_enforces_no_validation_witness :
    (updateItemHandler 1 ⟨some "", none⟩
      ⟨[⟨1, "a", none, 100⟩], 2, 100, none, none⟩).1.status ≠ 400 ∧
    (updateItemHandler 1 ⟨some "", none⟩
      ⟨[⟨1, "a", none, 100⟩], 2, 100, none, none⟩).1.status = 200 := by
  have h := put_enforces_no_validation 1 ⟨some "", none⟩
    ⟨[⟨1, "a", none, 100⟩], 2, 100, none, none⟩
  exact ⟨h.1, h.2.1 rfl (by decide) rfl⟩

/-- Claim C1 counterexample: posting `name = "widget"`,
`description = ""` (a valid payload: non-empty name, description supplied)
on the fresh store creates the row, but the subsequent GET of the returned
id answers a body whose description is NULL, not the posted empty string —
the posted description is not matched. -/
theorem create_get_description_mismatch :
    (createItemHandler ⟨some "widget", some ""⟩ store0).1.status = 201 ∧
    (getItemHandler 1
        (createItemHandler ⟨some "widget", some ""⟩ store0).2).1 =
      ⟨200, .jsonItem ⟨1, "widget", none, 100⟩⟩ ∧
    (⟨1, "widget", none, 100⟩ : Item).description ≠ some "" := by
  refine ⟨rfl, rfl, by simp⟩

/-- Claim C1 (amended): for a payload with a non-empty name and a
description that is absent or a non-empty string (so that the
`description || null` coercion is the identity), `POST /items` on a
reachable, well-formed store answers 201 with the created item — the posted
name and description plus the server-assigned SERIAL id and `created_at` —
and `GET /items/:id` at the returned id answers 200 with the same body. -/
theorem create_then_get_roundtrip (s : Store) (n : String) (d : Option String)
    (hfail : s.fail = none) (hn : n ≠ "") (hd : d = none ∨ falsy d = false)
    (hwf : ∀ r ∈ s.rows, r.id < s.nextId) :
    (createItemHandler ⟨some n, d⟩ s).1 =
      ⟨201, .jsonItem ⟨s.nextId, n, d, s.now⟩⟩ ∧
    (getItemHandler s.nextId (createItemHandler ⟨some n, d⟩ s).2).1 =
      ⟨200, .jsonItem ⟨s.nextId, n, d, s.now⟩⟩ := by
  have hfn : falsy (some n) = false := by simp [falsy, hn]
  have hcoal : coalesceDescr d = d := by
    rcases hd with hd | hd
    · simp [coalesceDescr, hd, falsy]
    · simp [coalesceDescr, hd]
  have hcreate : createItemHandler ⟨some n, d⟩ s =
      (⟨201, .jsonItem ⟨s.nextId, n, d, s.now⟩⟩,
       { s with rows := s.rows ++ [⟨s.nextId, n, d, s.now⟩],
                nextId := s.nextId + 1 }) := by
    simp [createItemHandler, hfn, hcoal, dbInsert, hfail]
  have hold : s.rows.filter (fun r => r.id = s.nextId) = [] := by
    refine List.filter_eq_nil_iff.mpr ?_
    intro r hr
    have := hwf r hr
    simp
    omega
  refine ⟨by rw [hcreate], ?_⟩
  rw [hcreate]
  simp [getItemHandler, dbSelectById, hfail, hold]

/-- Witness for `create_then_get_roundtrip`: the spec's §8 scenario,
`name = "widget"`, `description = "a widget"` on the fresh store. -/
theorem create_then_get_roundtrip_witness :
    (createItemHandler ⟨some "widget", some "a widget"⟩ store0).1 =
      ⟨201, .jsonItem ⟨1, "widget", some "a widget", 100⟩⟩ ∧
    (getItemHandler 1
        (createItemHandler ⟨some "widget", some "a widget"⟩ store0).2).1 =
      ⟨200, .jsonItem ⟨1, "widget", some "a widget", 100⟩⟩ :=
  create_then_get_roundtrip store0 "widget" (some "a widget") rfl
    (by decide) (Or.inr (by decide)) (by decide)

/-- Unfolding equation of the retry loop. -/
theorem initLoop_unfold (outcome : Nat → Bool) (t : Nat) :
    initLoop outcome t =
      if t < 12 then
        if outcome t then ⟨1, true, 0, false⟩
        else
          let r := initLoop outcome (t + 1)
          ⟨r.calls + 1, r.succeeded, r.sleptMs + 2000, r.exited⟩
      else ⟨0, false, 0, false⟩ := by
  rw [initLoop]

/-- The retry loop makes at most `12 - t` calls from counter value `t`, and
never exits the process. -/
theorem initLoop_calls_le (outcome : Nat → Bool) :
    ∀ n t, 12 - t ≤ n →
      (initLoop outcome t).calls ≤ n ∧ (initLoop outcome t).exited = false := by
  intro n
  induction n with
  | zero =>
    intro t ht
    have h12 : ¬ t < 12 := by omega
    rw [initLoop_unfold]
    simp [h12]
  | succ n ih =>
    intro t ht
    rw [initLoop_unfold]
    by_cases h : t < 12
    · by_cases ho : outcome t
      · simp [h, ho]
      · have := ih (t + 1) (by omega)
        simp only [h, if_true, ho, if_false]
        constructor
        · simpa using Nat.succ_le_succ this.1
        · simpa using this.2
    · simp [h]

/-- When every attempt fails, the loop from counter `t ≤ 12` runs the
remaining `12 - t` attempts, sleeps 2000 ms after each, and gives up without
success. -/
theorem initLoop_all_fail (outcome : Nat → Bool)
    (hfail : ∀ i, i < 12 → outcome i = false) :
    ∀ n t, 12 - t = n →
      initLoop outcome t = ⟨12 - t, false, 2000 * (12 - t), false⟩ := by
  intro n
  induction n with
  | zero =>
    intro t ht
    have h12 : ¬ t < 12 := by omega
    rw [initLoop_unfold]
    simp [h12]
    omega
  | succ n ih =>
    intro t ht
    have h : t < 12 := by omega
    have ho : outcome t = false := hfail t h
    rw [initLoop_unfold]
    simp only [h, if_true, ho, Bool.false_eq_true, if_false]
    rw [ih (t + 1) (by omega)]
    simp
    omega

/-- When the first success happens at counter value `k < 12`, the loop from
`t ≤ k` makes `k + 1 - t` calls, sleeps after each of the `k - t` failures,
and stops immediately on the success. -/
theorem initLoop_first_success (outcome : Nat → Bool) :
    ∀ n t k, 12 - t = n → t ≤ k → k < 12 →
      (∀ j, t ≤ j → j < k → outcome j = false) → outcome k = true →
      initLoop outcome t = ⟨k + 1 - t, true, 2000 * (k - t), false⟩ := by
  intro n
  induction n with
  | zero =>
    intro t k ht htk hk _ _
    omega
  | succ n ih =>
    intro t k ht htk hk hf hs
    have h : t < 12 := by omega
    rw [initLoop_unfold]
    by_cases he : t = k
    · subst he
      simp [h, hs]
    · have ho : outcome t = false := hf t (Nat.le_refl t) (by omega)
      simp only [h, if_true, ho, Bool.false_eq_true, if_false]
      rw [ih (t + 1) k (by omega) (by omega) hk
        (fun j hj hjk => hf j (by omega) hjk) hs]
      simp
      omega

/-- Claim C4: the startup sequencer calls `db.init()` at most 12 times and
never exits the process; when every attempt fails it makes exactly 12 calls,
sleeping the fixed 2000 ms after each (24000 ms in total), and gives up
without success; when the first success is the call made at counter value
`k`, it stops immediately after `k + 1` calls with `2000 * k` ms slept. -/
theorem startup_retry_discipline (outcome : Nat → Bool) :
    (dbInitSequencer outcome).calls ≤ 12 ∧
    (dbInitSequencer outcome).exited = false ∧
    ((∀ i, i < 12 → outcome i = false) →
      dbInitSequencer outcome = ⟨12, false, 24000, false⟩) ∧
    (∀ k, k < 12 → (∀ j, j < k → outcome j = false) → outcome k = true →
      dbInitSequencer outcome = ⟨k + 1, true, 2000 * k, false⟩) := by
  refine ⟨(initLoop_calls_le outcome 12 0 (by omega)).1,
          (initLoop_calls_le outcome 12 0 (by omega)).2, ?_, ?_⟩
  · intro hfail
    have h := initLoop_all_fail outcome hfail 12 0 rfl
    simpa [dbInitSequencer] using h
  · intro k hk hf hs
    have h := initLoop_first_success outcome 12 0 k rfl (Nat.zero_le k) hk
      (fun j _ hjk => hf j hjk) hs
    simpa [dbInitSequencer] using h

/-- Witness for `startup_retry_discipline`: when the first three attempts
fail and the fourth succeeds, the sequencer makes 4 calls and sleeps
6000 ms. -/
theorem startup_retry_discipline_witness :
    dbInitSequencer (fun i => decide (i = 3)) = ⟨4, true, 6000, false⟩ :=
  (startup_retry_discipline (fun i => decide (i = 3))).2.2.2 3 (by decide)
    (by decide) (by decide)

/-- The route label the dispatcher reports is exactly the matched express
route pattern. -/
theorem dispatch_pattern (req : Request) (s : Store)
    (h : ¬ (req.method = .GET ∧ req.path = .metrics)) :
    (dispatch req s).2.2 = routePattern req.method req.path := by
  rcases req with ⟨m, p, b⟩
  cases m <;> cases p <;> try rfl
  exact absurd ⟨rfl, rfl⟩ h

/-- Claim C8 counterexample: a `GET /metrics` request records no observation
at all — the metrics route (`index.js` line 45) is registered before the
timing middleware (line 55), so the middleware never runs for it — whereas
the claim asks for exactly one observation for every request including
`/metrics`. -/
theorem metrics_request_not_observed :
    (handleRequest ⟨.GET, .metrics, ⟨none, none⟩⟩ store0).2.2 = [] ∧
    ((handleRequest ⟨.GET, .metrics, ⟨none, none⟩⟩ store0).2.2).length ≠ 1 := by
  refine ⟨rfl, by simp [handleRequest, store0]⟩

/-- Claim C8 (amended): every request except a `GET /metrics` records, on
response completion, exactly one observation labelled by the request method,
the matched route pattern (falling back to the raw path when no route
matched) and the final status code; a `GET /metrics` request records none,
because that route is registered before the timing middleware. -/
theorem request_duration_observed (req : Request) (s : Store) :
    (¬ (req.method = .GET ∧ req.path = .metrics) →
      (handleRequest req s).2.2 =
        [⟨req.method,
          (routePattern req.method req.path).getD (rawPath req.path),
          (handleRequest req s).1.status⟩]) ∧
    ((req.method = .GET ∧ req.path = .metrics) →
      (handleRequest req s).2.2 = []) := by
  constructor
  · intro h
    simp only [handleRequest, if_neg h]
    rw [dispatch_pattern req s h]
  · intro h
    simp only [handleRequest, if_pos h]
    rcases s.metricsFail with _ | e <;> simp

/-- Witness for `request_duration_observed`: a `GET /healthz` on the fresh
store records the single observation `GET /healthz 200`. -/
theorem request_duration_observed_witness :
    (handleRequest ⟨.GET, .healthz, ⟨none, none⟩⟩ store0).2.2 =
      [⟨.GET, "/healthz", 200⟩] := by
  rw [(request_duration_observed ⟨.GET, .healthz, ⟨none, none⟩⟩ store0).1
    (by decide)]
  rfl

end DevopsAssignment
